import Mathlib

/-!
Verification development for the legal-citation extraction and resolution
pipeline (`backend/citation_parser.py`, `backend/document_processor.py`).

The Python code is shallowly embedded: regular-expression recognizers become
explicit character-list munchers with the same greedy/backtracking semantics,
and Python float arithmetic on the small decimal confidence scores is
modelled exactly over `ℚ`.  Python truthiness tests (`if components.get(..)`,
`all([...])`) are modelled as the corresponding zero/empty/`none` tests.
The resolution engine's candidate queries are modelled at two levels: the
sets their written filter conditions describe (list filters over an explicit
corpus), and the runtime fact that both are onclause-less joins over a schema
with two foreign-key paths between citations and documents, which raise
`AmbiguousForeignKeysError` when constructed (`link_one_citation_run`).
-/

namespace CitationGraph

/-! ## Character-level model of the regex recognizers

Python `re` on the relevant ASCII inputs: `\d` is `Char.isDigit`, `\s` is
`Char.isWhitespace`, `[A-Z]` is `Char.isUpper`, `[A-Za-z]` is `Char.isAlpha`.
-/

/-- Maximal run of characters satisfying `p` (greedy `X*`), with the rest. -/
def takeRun (p : Char → Bool) (cs : List Char) : List Char × List Char :=
  (cs.takeWhile p, cs.dropWhile p)

/-- Greedy `X+`: at least one character satisfying `p`, else failure. -/
def munch1 (p : Char → Bool) (cs : List Char) : Option (List Char × List Char) :=
  match takeRun p cs with
  | (run, rest) => if run.isEmpty then none else some (run, rest)

/-- Value of a digit string, as produced by Python `int` on a `\d+` group. -/
def digitsToNat (ds : List Char) : Nat :=
  ds.foldl (fun n c => 10 * n + (c.toNat - 48)) 0

/-- Match a literal character sequence at the head of the input. -/
def stripLit (lit : List Char) (cs : List Char) : Option (List Char) :=
  if lit.isPrefixOf cs then some (cs.drop lit.length) else none

/-- First series suffix among `opts` (for `(?:2d|3d|4d)?` style groups);
the alternatives are mutually exclusive on their first character. -/
def trySeries (opts : List (List Char)) (cs : List Char) :
    Option (List Char × List Char) :=
  match opts.find? (fun o => o.isPrefixOf cs) with
  | some o => some (o, cs.drop o.length)
  | none => none

def litUS : List Char := ['U', '.', 'S', '.']
def litF : List Char := ['F', '.']
def lit2d : List Char := ['2', 'd']
def lit3d : List Char := ['3', 'd']
def lit4d : List Char := ['4', 'd']

/-- `re.match(r'(\d+)\s+U\.S\.\s+(\d+)', text)`: returns the matched span,
the remaining text, and the two captures. -/
def matchUS (cs : List Char) : Option (List Char × List Char × Nat × Nat) := do
  let (v, r1) ← munch1 Char.isDigit cs
  let (w1, r2) ← munch1 Char.isWhitespace r1
  let r3 ← stripLit litUS r2
  let (w2, r4) ← munch1 Char.isWhitespace r3
  let (p, r5) ← munch1 Char.isDigit r4
  pure (v ++ w1 ++ litUS ++ w2 ++ p, r5, digitsToNat v, digitsToNat p)

/-- `re.match(r'(\d+)\s+F\.(?:2d|3d|4d)?\s+(\d+)', text)`.  The optional
series group is greedy: it is consumed when doing so lets the rest of the
pattern match, otherwise the empty alternative is taken. -/
def matchF (cs : List Char) : Option (List Char × List Char × Nat × Nat) := do
  let (v, r1) ← munch1 Char.isDigit cs
  let (w1, r2) ← munch1 Char.isWhitespace r1
  let r3 ← stripLit litF r2
  let withSeries : Option (List Char × List Char × Nat × Nat) := do
    let (s, a1) ← trySeries [lit2d, lit3d, lit4d] r3
    let (w2, a2) ← munch1 Char.isWhitespace a1
    let (p, a3) ← munch1 Char.isDigit a2
    pure (v ++ w1 ++ litF ++ s ++ w2 ++ p, a3, digitsToNat v, digitsToNat p)
  let noSeries : Option (List Char × List Char × Nat × Nat) := do
    let (w2, a1) ← munch1 Char.isWhitespace r3
    let (p, a2) ← munch1 Char.isDigit a1
    pure (v ++ w1 ++ litF ++ w2 ++ p, a2, digitsToNat v, digitsToNat p)
  withSeries <|> noSeries

/-- `re.match(r'(\d+)\s+([A-Z]{2})\.?\s+(?:2d|3d)?\s+(\d+)', text)`.
After the two capital letters and optional period, `\s+(?:2d|3d)?\s+` over a
maximal whitespace run of length `k` matches either a series suffix directly
after the run (followed by more whitespace and digits), or — backtracking the
first `\s+` — digits directly after the run provided `k ≥ 2`. -/
def matchState (cs : List Char) :
    Option (List Char × List Char × Nat × String × Nat) := do
  let (v, r1) ← munch1 Char.isDigit cs
  let (w1, r2) ← munch1 Char.isWhitespace r1
  match r2 with
  | c1 :: c2 :: r3 =>
    if c1.isUpper && c2.isUpper then
      let (dot, r4) : List Char × List Char :=
        match r3 with
        | '.' :: t => (['.'], t)
        | _ => ([], r3)
      let go : Option (List Char × List Char × Nat × String × Nat) := do
        let (run, r5) ← munch1 Char.isWhitespace r4
        let withSeries : Option (List Char × List Char × Nat × String × Nat) := do
          let (s, a1) ← trySeries [lit2d, lit3d] r5
          let (w2, a2) ← munch1 Char.isWhitespace a1
          let (p, a3) ← munch1 Char.isDigit a2
          pure (v ++ w1 ++ [c1, c2] ++ dot ++ run ++ s ++ w2 ++ p, a3,
            digitsToNat v, String.mk [c1, c2], digitsToNat p)
        let noSeries : Option (List Char × List Char × Nat × String × Nat) := do
          if 2 ≤ run.length then
            let (p, a1) ← munch1 Char.isDigit r5
            pure (v ++ w1 ++ [c1, c2] ++ dot ++ run ++ p, a1,
              digitsToNat v, String.mk [c1, c2], digitsToNat p)
          else none
        withSeries <|> noSeries
      go
    else none
  | _ => none

/-- `re.match(r'(\d+)\s+([A-Za-z]+)\.?\s+(\d+)', text)`: the reporter capture
is the alphabetic token only; the optional period is matched but not captured. -/
def matchGeneric (cs : List Char) :
    Option (List Char × List Char × Nat × String × Nat) := do
  let (v, r1) ← munch1 Char.isDigit cs
  let (w1, r2) ← munch1 Char.isWhitespace r1
  let (letters, r3) ← munch1 Char.isAlpha r2
  let (dot, r4) : List Char × List Char :=
    match r3 with
    | '.' :: t => (['.'], t)
    | _ => ([], r3)
  let (w2, r5) ← munch1 Char.isWhitespace r4
  let (p, r6) ← munch1 Char.isDigit r5
  pure (v ++ w1 ++ letters ++ dot ++ w2 ++ p, r6,
    digitsToNat v, String.mk letters, digitsToNat p)

/-! ## Components and normalization (`citation_parser.py`) -/

/-- The components dictionary built by `_extract_citation_components`. -/
structure Components where
  volume : Option Nat := none
  reporter : Option String := none
  page : Option Nat := none
  year : Option Nat := none
deriving DecidableEq, Repr

/-- `_extract_citation_components`: the four anchored recognizers are tried in
order; the first that matches supplies the components; year is never set. -/
def extract_citation_components (text : String) : Components :=
  match matchUS text.data with
  | some (_, _, v, p) => { volume := some v, reporter := some "U.S.", page := some p }
  | none =>
    match matchF text.data with
    | some (_, _, v, p) => { volume := some v, reporter := some "F.", page := some p }
    | none =>
      match matchState text.data with
      | some (_, _, v, rep, p) =>
        { volume := some v, reporter := some rep, page := some p }
      | none =>
        match matchGeneric text.data with
        | some (_, _, v, rep, p) =>
          { volume := some v, reporter := some rep, page := some p }
        | none => {}

/-- Python truthiness of an optional integer field (`components.get("volume")`). -/
def truthyNat : Option Nat → Bool
  | some n => n ≠ 0
  | none => false

/-- Python truthiness of an optional string field. -/
def truthyStr : Option String → Bool
  | some s => s ≠ ""
  | none => false

/-- `_create_normalized_key`: space-join the truthy fields among
volume, reporter, page (in that order); `"unknown"` when none is truthy. -/
def create_normalized_key (c : Components) : String :=
  let parts : List String :=
    (match c.volume with
      | some v => if v = 0 then [] else [toString v]
      | none => [])
    ++ (match c.reporter with
      | some r => if r = "" then [] else [r]
      | none => [])
    ++ (match c.page with
      | some p => if p = 0 then [] else [toString p]
      | none => [])
  if parts.isEmpty then "unknown" else " ".intercalate parts

/-- Modelled from the spec wording of C5: the key concatenates the PRESENT
fields among volume, reporter, page, regardless of their value. -/
def claimed_normalized_key (c : Components) : String :=
  let parts : List String :=
    (c.volume.map toString).toList ++ c.reporter.toList ++ (c.page.map toString).toList
  if parts.isEmpty then "unknown" else " ".intercalate parts

/-- Amended key for C5: a field contributes exactly when it is present and
truthy (nonzero for volume/page, non-empty for reporter). -/
def amended_normalized_key (c : Components) : String :=
  let parts : List String :=
    ((c.volume.filter (fun v => v ≠ 0)).map toString).toList
    ++ (c.reporter.filter (fun r => r ≠ "")).toList
    ++ ((c.page.filter (fun p => p ≠ 0)).map toString).toList
  if parts.isEmpty then "unknown" else " ".intercalate parts

/-! ## ParsedCitation and the full-text fallback (`parse_citations`) -/

/-- The `ParsedCitation` dataclass.  Confidence is modelled over `ℚ`. -/
structure ParsedCitation where
  raw_text : String
  normalized_key : String
  reporter : Option String := none
  volume : Option Nat := none
  page : Option Nat := none
  year : Option Nat := none
  page_number : Option Nat := none
  span_start : Option Nat := none
  span_end : Option Nat := none
  confidence : ℚ := 0
deriving DecidableEq, Repr

/-- `re.finditer` for a matcher that reports (matched span, rest): scan left to
right, emit non-overlapping matches, resume after each match.  The fuel is an
upper bound on the scan positions; every recognizer consumes at least one
character, so `cs.length` fuel never truncates. -/
def findIterAux (m : List Char → Option (List Char × List Char)) :
    Nat → List Char → List (List Char)
  | 0, _ => []
  | _, [] => []
  | fuel + 1, c :: rest =>
    match m (c :: rest) with
    | some (raw, after) => raw :: findIterAux m fuel after
    | none => findIterAux m fuel rest

def findIter (m : List Char → Option (List Char × List Char))
    (cs : List Char) : List (List Char) :=
  findIterAux m cs.length cs

/-- Fallback pattern 1 of `parse_citations` (the U.S. form), span only. -/
def fallbackUS (cs : List Char) : Option (List Char × List Char) :=
  (matchUS cs).map (fun r => (r.1, r.2.1))

/-- Fallback pattern 2 (the Federal Reporter form), span only. -/
def fallbackF (cs : List Char) : Option (List Char × List Char) :=
  (matchF cs).map (fun r => (r.1, r.2.1))

/-- Fallback pattern 3 (the two-capital-letter state form), span only. -/
def fallbackState (cs : List Char) : Option (List Char × List Char) :=
  (matchState cs).map (fun r => (r.1, r.2.1))

/-- The `ParsedCitation` built by `parse_citations` for one regex match:
raw text and normalized key are both the matched text, no components, 0.6. -/
def mkFallbackCitation (raw : List Char) : ParsedCitation :=
  { raw_text := String.mk raw
    normalized_key := String.mk raw
    confidence := 3/5 }

/-- `CitationParser.parse_citations`: run the three fallback patterns over the
whole text, in pattern order, collecting one record per match. -/
def parse_citations (text : String) : List ParsedCitation :=
  (findIter fallbackUS text.data ++ findIter fallbackF text.data
    ++ findIter fallbackState text.data).map mkFallbackCitation

/-! ## Citation records and the resolution engine (`document_processor.py`)

The database is modelled as the explicit list of all persisted `Citation`
rows (the corpus); a document is identified by its id string.  The candidate
queries of `_link_citations` and `_find_fuzzy_citations` are onclause-less
`join(CitationModel)` calls, and `citations` has TWO foreign keys to
`documents` (`from_doc_id` and `to_doc_id`), so constructing either query
raises `AmbiguousForeignKeysError` at runtime; `link_one_citation_run` below
models that.  The definitions `exactCandidates` and `find_fuzzy_citations`
state the sets the written filter conditions describe (join on the owning
document, one entry per document in corpus order, SQL `=` on nullable columns
never matching `NULL`); they are used to express what the written — but
unreachable — branch bodies would select. -/

/-- The persisted `Citation` model. -/
structure Citation where
  from_doc_id : String
  to_doc_id : Option String := none
  raw_text : String := ""
  normalized_key : String := ""
  reporter : Option String := none
  volume : Option Nat := none
  page : Option Nat := none
  year : Option Nat := none
  page_number : Option Nat := none
  span_start : Option Nat := none
  span_end : Option Nat := none
  confidence : ℚ := 0
  resolution_notes : String := "[]"
deriving DecidableEq, Repr

/-- SQL equality on a nullable integer column: `NULL` matches nothing. -/
def sqlEqNat : Option Nat → Option Nat → Bool
  | some a, some b => a = b
  | _, _ => false

/-- SQL equality on a nullable string column: `NULL` matches nothing. -/
def sqlEqStr : Option String → Option String → Bool
  | some a, some b => a = b
  | _, _ => false

/-- First-occurrence deduplication (the ORM returns each entity once). -/
def dedupFirstAux : List String → List String → List String
  | [], _ => []
  | x :: xs, seen =>
    if x ∈ seen then dedupFirstAux xs seen else x :: dedupFirstAux xs (x :: seen)

def dedupFirst (l : List String) : List String := dedupFirstAux l []

/-- The guard `all([citation.reporter, citation.volume, citation.page])`. -/
def complete_components (c : Citation) : Bool :=
  truthyStr c.reporter && truthyNat c.volume && truthyNat c.page

/-- The document set described by the exact-match query's filter conditions
(document_processor.py:205): documents owning a citation with the same
(reporter, volume, page), excluding the citing document.  At runtime the
query never returns — its onclause-less dual-FK join raises (see
`ambiguous_join_error`); this definition states what the written branch
logic selects. -/
def exactCandidates (corpus : List Citation) (c : Citation) : List String :=
  dedupFirst ((corpus.filter (fun r =>
    sqlEqStr r.reporter c.reporter && sqlEqNat r.volume c.volume
      && sqlEqNat r.page c.page && r.from_doc_id != c.from_doc_id)).map
    (fun r => r.from_doc_id))

/-- The fuzzy volume test `doc_citation.volume and citation.volume and
abs(doc_citation.volume - citation.volume) <= 10` (truthiness: zero volumes
never pass). -/
def volume_window (a b : Option Nat) : Bool :=
  match a, b with
  | some x, some y =>
    (x != 0) && (y != 0) && decide (((x : Int) - (y : Int)).natAbs ≤ 10)
  | _, _ => false

/-- The document set described by `_find_fuzzy_citations`' filter conditions
(document_processor.py:286): documents (other than the citing one) owning a
same-reporter citation, kept when one of their citations has the same
reporter and a truthy volume within ±10 of the citing citation's volume.  At
runtime the function's own onclause-less dual-FK join raises (and it is only
called after the exact-candidates query, which raises first). -/
def find_fuzzy_citations (corpus : List Citation) (c : Citation) : List String :=
  if truthyStr c.reporter then
    let docs := dedupFirst ((corpus.filter (fun r =>
      sqlEqStr r.reporter c.reporter && r.from_doc_id != c.from_doc_id)).map
      (fun r => r.from_doc_id))
    docs.filter (fun d => corpus.any (fun r =>
      (r.from_doc_id == d) && (r.reporter == c.reporter)
        && volume_window r.volume c.volume))
  else []

def exact_match_note : String := "[\"Exact reporter/volume/page match\"]"

def network_note (n : Nat) : String :=
  "[\"Multiple candidates (" ++ toString n ++ "), network connection\"]"

def primary_note (n : Nat) : String :=
  "[\"Multiple candidates (" ++ toString n ++ "), primary connection\"]"

def fuzzy_note : String := "[\"Fuzzy citation match - potential connection\"]"

/-- The additional `CitationModel` row inserted per fan-out candidate. -/
def fanout_record (c : Citation) (target : String) (n : Nat) : Citation :=
  { from_doc_id := c.from_doc_id
    to_doc_id := some target
    raw_text := c.raw_text
    normalized_key := c.normalized_key
    reporter := c.reporter
    volume := c.volume
    page := c.page
    year := c.year
    page_number := c.page_number
    span_start := c.span_start
    span_end := c.span_end
    confidence := max (c.confidence - 2/10) (1/10)
    resolution_notes := network_note n }

/-- The `CitationModel` row inserted per fuzzy candidate. -/
def fuzzy_record (c : Citation) (target : String) : Citation :=
  { from_doc_id := c.from_doc_id
    to_doc_id := some target
    raw_text := c.raw_text
    normalized_key := c.normalized_key
    reporter := c.reporter
    volume := c.volume
    page := c.page
    year := c.year
    page_number := c.page_number
    span_start := c.span_start
    span_end := c.span_end
    confidence := 3/10
    resolution_notes := fuzzy_note }

/-- Result of the `_link_citations` loop body for one citation: the (possibly
updated) original row, the newly inserted rows in insertion order, and the
`linked_count` contribution. -/
structure LinkResult where
  citation : Citation
  new_records : List Citation
  linked_count : Nat
deriving DecidableEq, Repr

/-- The `_link_citations` loop body as written, under the counterfactual that
the candidates queries return their matching rows: incomplete citations are
skipped; one exact candidate gives the high-confidence in-place link; several
exact candidates insert one row per candidate whose id differs from the
original's pre-update `to_doc_id` (always all of them for a freshly stored
citation) and then point the original at the first candidate; no exact
candidate falls back to fuzzy matching.  At runtime only the skip path is
reachable: a complete citation raises at the candidates query — see
`link_one_citation_run`. -/
def link_one_citation (corpus : List Citation) (c : Citation) : LinkResult :=
  if complete_components c then
    match exactCandidates corpus c with
    | [] =>
      let fz := find_fuzzy_citations corpus c
      ⟨c, fz.map (fuzzy_record c), fz.length⟩
    | [d] =>
      ⟨{ c with
          to_doc_id := some d,
          confidence := min (c.confidence + 3/10) 1,
          resolution_notes := exact_match_note }, [], 1⟩
    | ds =>
      let adds := (ds.filter (fun d => some d != c.to_doc_id)).map
        (fun d => fanout_record c d ds.length)
      ⟨{ c with
          to_doc_id := some (ds.headD ""),
          confidence := max (c.confidence - 2/10) (1/10),
          resolution_notes := primary_note ds.length }, adds, adds.length + 1⟩
  else ⟨c, [], 0⟩

/-- The row built by `_store_citations` for one parsed citation: unresolved
(`to_doc_id = NULL`), empty notes array. -/
def store_citation_record (from_doc_id : String) (p : ParsedCitation) : Citation :=
  { from_doc_id := from_doc_id
    to_doc_id := none
    raw_text := p.raw_text
    normalized_key := p.normalized_key
    reporter := p.reporter
    volume := p.volume
    page := p.page
    year := p.year
    page_number := p.page_number
    span_start := p.span_start
    span_end := p.span_end
    confidence := p.confidence
    resolution_notes := "[]" }

/-! ## Database operation traces (commit placement, claim C9) -/

/-- Database session events issued while processing one document. -/
inductive DbOp where
  | add : Citation → DbOp
  | update : Citation → DbOp
  | commit : DbOp
deriving DecidableEq, Repr

def DbOp.isCommit : DbOp → Bool
  | .commit => true
  | _ => false

def countCommits (l : List DbOp) : Nat := (l.filter DbOp.isCommit).length

/-- Events of `_store_citations`: add every row, then one commit. -/
def store_citations_ops (from_doc_id : String) (ps : List ParsedCitation) :
    List DbOp :=
  (ps.map (fun p => DbOp.add (store_citation_record from_doc_id p))) ++ [DbOp.commit]

/-- The error SQLAlchemy raises for `db.query(DocumentModel).join(CitationModel)`
without an onclause: `citations` carries two foreign keys to `documents`
(`from_doc_id` and `to_doc_id`, with two matching relationship paths), so join
inference cannot pick one and raises when the query is constructed — before it
touches any data, for every corpus. -/
def ambiguous_join_error : String :=
  "AmbiguousForeignKeysError: cannot determine join between documents and citations; tables have more than one foreign key constraint relationship between them"

/-- Runtime behavior of the `_link_citations` loop body.  An incomplete
citation is skipped by the completeness guard before any query is built; a
complete citation reaches the exact-candidates query, whose onclause-less
dual-FK join raises, aborting the document's pass.  The single-candidate,
fan-out and fuzzy branches are therefore unreachable (their written bodies
are modelled by `link_one_citation`). -/
def link_one_citation_run (_corpus : List Citation) (c : Citation) :
    Except String LinkResult :=
  if complete_components c then Except.error ambiguous_join_error
  else Except.ok ⟨c, [], 0⟩

/-- Runtime events of `_link_citations` over a document's stored citations:
skipped citations issue no operations; the first complete citation raises at
its candidates query, so the trailing commit is reached only when no citation
in the document is complete.  Returns the issued operations together with the
error, if any. -/
def link_citations_run_ops : List Citation → List DbOp × Option String
  | [] => ([DbOp.commit], none)
  | c :: rest =>
    if complete_components c then ([], some ambiguous_join_error)
    else link_citations_run_ops rest

/-- Runtime events of one document's processing pass: `_store_citations` adds
every row and commits, then `_link_citations` runs until it raises or
commits. -/
def process_document_run_ops (docId : String) (ps : List ParsedCitation) :
    List DbOp × Option String :=
  let stored := ps.map (store_citation_record docId)
  let link := link_citations_run_ops stored
  (store_citations_ops docId ps ++ link.1, link.2)

/-! ## Batch orchestration (`process_all_documents`) -/

/-- One entry of the batch summary's `results` list. -/
structure DocResult where
  document_id : String
  processing_status : String
  error : Option String := none
deriving DecidableEq, Repr

/-- The aggregate summary returned by `process_all_documents`. -/
structure BatchSummary where
  total_documents : Nat
  processed : Nat
  failed : Nat
  results : List DocResult
deriving DecidableEq, Repr

/-- A document is unprocessed when it has no outgoing citation records. -/
def has_outgoing (corpus : List Citation) (d : String) : Bool :=
  corpus.any (fun r => r.from_doc_id == d)

/-- `process_all_documents`: run each unprocessed document through the
pipeline (`run_doc` abstracts `process_document`, which returns status
"completed" on success and raises on failure); a failure is caught and
recorded per-document without aborting the batch. -/
def process_all_documents (docs : List String) (corpus : List Citation)
    (run_doc : String → Except String Unit) : BatchSummary :=
  let unprocessed := docs.filter (fun d => !(has_outgoing corpus d))
  let results := unprocessed.map (fun d =>
    match run_doc d with
    | Except.ok _ => DocResult.mk d "completed" none
    | Except.error e => DocResult.mk d "failed" (some e))
  { total_documents := unprocessed.length
    processed := (results.filter (fun r => r.processing_status == "completed")).length
    failed := (results.filter (fun r => r.processing_status == "failed")).length
    results := results }

/-! ## Concrete fixtures used by witnesses and counterexamples -/

/-- A stored citation record with components (U.S., 410, 113) owned by `d`. -/
def usRecord (d : String) : Citation :=
  { from_doc_id := d, raw_text := "410 U.S. 113", normalized_key := "410 U.S. 113",
    reporter := some "U.S.", volume := some 410, page := some 113, confidence := 8/10 }

/-- A freshly stored citation of document "docC" citing (U.S., 410, 113). -/
def citingUS : Citation :=
  { from_doc_id := "docC", raw_text := "410 U.S. 113", normalized_key := "410 U.S. 113",
    reporter := some "U.S.", volume := some 410, page := some 113, confidence := 1/2 }

/-- A parsed citation with all three components absent. -/
def incompleteParsed : ParsedCitation :=
  { raw_text := "some unparsable span", normalized_key := "unknown", confidence := 8/10 }

/-! ## Helper lemmas -/

theorem countCommits_map_add {α : Type} (f : α → Citation) (l : List α) :
    countCommits (l.map (fun x => DbOp.add (f x))) = 0 := by
  induction l with
  | nil => simp [countCommits]
  | cons x xs ih => simp [countCommits, DbOp.isCommit]

def corpusSingle : List Citation := [usRecord "docA", citingUS]

/-- Claim C2 (code_bug): the claim (matching the spec's single-candidate
resolution step) expects the citation to be linked to the sole exact
candidate with confidence `min (original + 0.3) 1` and the exact-match note,
but the candidates query `db.query(DocumentModel).join(CitationModel)`
(document_processor.py:205) is an onclause-less join over a schema with two
foreign-key paths between citations and documents, so it raises
`AmbiguousForeignKeysError` before the single-candidate branch can run: at an
input whose written candidate set is exactly ["docA"], resolution aborts with
the error instead of linking. -/
theorem single_candidate_query_raises :
    complete_components citingUS = true ∧
    exactCandidates corpusSingle citingUS = ["docA"] ∧
    link_one_citation_run corpusSingle citingUS =
      Except.error ambiguous_join_error :=
  ⟨by decide, by decide, rfl⟩

/-- Claim C4 (confirmed): a citation missing any of reporter, volume or page
is persisted unresolved (`to_doc_id = none`) and resolution leaves it
untouched — no exact or fuzzy linking is attempted, no records are inserted,
and the (total) linking function raises no error. -/
theorem incomplete_citation_skipped (corpus : List Citation) (docId : String)
    (p : ParsedCitation)
    (h : p.reporter = none ∨ p.volume = none ∨ p.page = none) :
    (store_citation_record docId p).to_doc_id = none ∧
    link_one_citation corpus (store_citation_record docId p) =
      ⟨store_citation_record docId p, [], 0⟩ := by
  have hcomp : complete_components (store_citation_record docId p) = false := by
    rcases h with h | h | h <;>
      simp [complete_components, store_citation_record, truthyStr, truthyNat, h]
  exact ⟨rfl, by simp [link_one_citation, hcomp]⟩

theorem incomplete_citation_skipped_witness :
    (incompleteParsed.reporter = none ∨ incompleteParsed.volume = none ∨
      incompleteParsed.page = none) ∧
    ((store_citation_record "docC" incompleteParsed).to_doc_id = none ∧
     link_one_citation [usRecord "docA"] (store_citation_record "docC" incompleteParsed) =
       ⟨store_citation_record "docC" incompleteParsed, [], 0⟩) :=
  ⟨Or.inl rfl,
    incomplete_citation_skipped [usRecord "docA"] "docC" incompleteParsed (Or.inl rfl)⟩

/-- Claim C10 (confirmed): every `ParsedCitation` produced by the full-text
fallback `parse_citations` has its normalized key equal to the raw matched
text, all of reporter/volume/page/year absent, and confidence exactly 0.6. -/
theorem fallback_citations_shape (text : String) (pc : ParsedCitation)
    (h : pc ∈ parse_citations text) :
    pc.normalized_key = pc.raw_text ∧ pc.reporter = none ∧ pc.volume = none ∧
    pc.page = none ∧ pc.year = none ∧ pc.confidence = 3/5 := by
  unfold parse_citations at h
  rcases List.mem_map.mp h with ⟨raw, _, rfl⟩
  simp [mkFallbackCitation]

def fallbackSample : ParsedCitation := mkFallbackCitation "410 U.S. 113".data

theorem parse_single_us_text :
    parse_citations "410 U.S. 113" = [fallbackSample] := rfl

theorem fallback_citations_shape_witness :
    fallbackSample ∈ parse_citations "410 U.S. 113" ∧
    (fallbackSample.normalized_key = fallbackSample.raw_text ∧
      fallbackSample.reporter = none ∧ fallbackSample.volume = none ∧
      fallbackSample.page = none ∧ fallbackSample.year = none ∧
      fallbackSample.confidence = 3/5) :=
  ⟨by rw [parse_single_us_text]; exact List.mem_singleton.mpr rfl,
    fallback_citations_shape "410 U.S. 113" fallbackSample
      (by rw [parse_single_us_text]; exact List.mem_singleton.mpr rfl)⟩

/-- Claim C6 (code_bug): the claim (and the repository's own test
`test_parse_citation_without_year`) expects reporter "Cal." for the text
"123 Cal. 456", but `_extract_citation_components` reaches the generic
pattern, whose reporter capture `([A-Za-z]+)` excludes the period, so the
code extracts reporter "Cal". -/
theorem extract_cal_reporter_period_dropped :
    extract_citation_components "123 Cal. 456" =
      { volume := some 123, reporter := some "Cal", page := some 456, year := none } ∧
    (some "Cal" : Option String) ≠ some "Cal." :=
  ⟨by decide, by decide⟩

/-- Claim C7 (code_bug): the claim (and the repository's own test
`test_parse_multiple_citations`) expects two ParsedCitations from
"See 410 U.S. 113 and 123 Cal. 456", but `parse_citations` has no generic
fallback pattern and "Cal" is not a two-capital-letter code, so only the
U.S. citation is found. -/
theorem parse_two_citations_one_found :
    (parse_citations "See 410 U.S. 113 and 123 Cal. 456").map
        (fun c => c.raw_text) = ["410 U.S. 113"] ∧
    (parse_citations "See 410 U.S. 113 and 123 Cal. 456").length = 1 :=
  ⟨by decide, by decide⟩

/-- Claim C5 (corrected, amended form): the normalized key is the
space-separated concatenation of the fields among volume, reporter, page (in
that order) that are present AND truthy — nonzero for volume/page, non-empty
for reporter — with the literal "unknown" when no field qualifies;
normalization is deterministic, so normalizing twice yields identical keys.
The original claim included every present field; see the counterexample. -/
theorem normalized_key_truthy_fields (c : Components) :
    create_normalized_key c = amended_normalized_key c ∧
    create_normalized_key c = create_normalized_key c := by
  refine ⟨?_, rfl⟩
  rcases c with ⟨v, r, p, y⟩
  cases v <;> cases r <;> cases p <;>
    simp [create_normalized_key, amended_normalized_key, Option.filter] <;>
    split_ifs <;> simp_all

/-- Claim C5 counterexample: the extractable component set of "0 U.S. 0"
has volume and page present (both 0), so the claimed key is "0 U.S. 0", but
`_create_normalized_key` tests Python truthiness and omits zero fields,
producing "U.S.". -/
theorem normalized_key_zero_fields_counterexample :
    extract_citation_components "0 U.S. 0" =
      { volume := some 0, reporter := some "U.S.", page := some 0, year := none } ∧
    create_normalized_key
      { volume := some 0, reporter := some "U.S.", page := some 0, year := none } = "U.S." ∧
    claimed_normalized_key
      { volume := some 0, reporter := some "U.S.", page := some 0, year := none } = "0 U.S. 0" ∧
    ("U.S." : String) ≠ "0 U.S. 0" :=
  ⟨by decide, by decide, by decide, by decide⟩

/-- Claim C8 (confirmed): `process_all_documents` runs every unprocessed
document (no outgoing citation records) independently; when one of three
documents fails, the other two are still processed and the summary reports
processed = 2, failed = 1, with the failing document marked status "failed"
together with its error text. -/
theorem batch_isolates_failures (a b c e : String) (corpus : List Citation)
    (run_doc : String → Except String Unit)
    (hua : has_outgoing corpus a = false)
    (hub : has_outgoing corpus b = false)
    (huc : has_outgoing corpus c = false)
    (hra : run_doc a = Except.ok ())
    (hrb : run_doc b = Except.error e)
    (hrc : run_doc c = Except.ok ()) :
    process_all_documents [a, b, c] corpus run_doc =
      { total_documents := 3, processed := 2, failed := 1,
        results := [{ document_id := a, processing_status := "completed", error := none },
          { document_id := b, processing_status := "failed", error := some e },
          { document_id := c, processing_status := "completed", error := none }] } := by
  simp [process_all_documents, hua, hub, huc, hra, hrb, hrc]

def batchOracle (d : String) : Except String Unit :=
  if d = "doc2" then Except.error "boom" else Except.ok ()

theorem batch_isolates_failures_witness :
    (has_outgoing [] "doc1" = false ∧ has_outgoing [] "doc2" = false ∧
      has_outgoing [] "doc3" = false ∧ batchOracle "doc1" = Except.ok () ∧
      batchOracle "doc2" = Except.error "boom" ∧ batchOracle "doc3" = Except.ok ()) ∧
    process_all_documents ["doc1", "doc2", "doc3"] [] batchOracle =
      { total_documents := 3, processed := 2, failed := 1,
        results := [{ document_id := "doc1", processing_status := "completed", error := none },
          { document_id := "doc2", processing_status := "failed", error := some "boom" },
          { document_id := "doc3", processing_status := "completed", error := none }] } :=
  ⟨⟨rfl, rfl, rfl, rfl, rfl, rfl⟩,
    batch_isolates_failures "doc1" "doc2" "doc3" "boom" [] batchOracle
      rfl rfl rfl rfl rfl rfl⟩

/-- Claim C9 (corrected, amended form): no commit is per-citation, but one
document's pass is not a single transactional unit either: the stored
(unresolved) rows are committed by the store phase's own commit before any
resolution work, and the resolution phase's single trailing commit is reached
only when the document has no complete citation — any complete citation makes
the candidates query raise (`AmbiguousForeignKeysError`, onclause-less
dual-FK join), aborting the pass right after the store-phase commit with no
resolution commit at all. -/
theorem document_pass_store_commit_then_abort (docId : String)
    (ps : List ParsedCitation) :
    process_document_run_ops docId ps =
      ((ps.map (fun p => DbOp.add (store_citation_record docId p))) ++ [DbOp.commit]
          ++ (link_citations_run_ops (ps.map (store_citation_record docId))).1,
        (link_citations_run_ops (ps.map (store_citation_record docId))).2) ∧
    countCommits (ps.map (fun p => DbOp.add (store_citation_record docId p))) = 0 ∧
    (∀ cs : List Citation, link_citations_run_ops cs =
      (if cs.all (fun c => !(complete_components c)) then ([DbOp.commit], none)
        else ([], some ambiguous_join_error))) := by
  refine ⟨?_, countCommits_map_add _ _, ?_⟩
  · simp [process_document_run_ops, store_citations_ops, List.append_assoc]
  · intro cs
    induction cs with
    | nil => simp [link_citations_run_ops]
    | cons c rest ih =>
      by_cases hc : complete_components c = true
      · simp [link_citations_run_ops, hc]
      · rw [Bool.not_eq_true] at hc
        simp [link_citations_run_ops, hc, ih]

def parsedUS : ParsedCitation :=
  { raw_text := "410 U.S. 113", normalized_key := "410 U.S. 113",
    reporter := some "U.S.", volume := some 410, page := some 113, confidence := 8/10 }

/-- Claim C9 counterexample: processing a document with one complete citation
commits exactly once — the store-phase commit, issued before any citation is
evaluated for resolution — and then aborts at the candidates query, so the
single end-of-pass transactional unit the claim describes does not exist. -/
theorem single_commit_counterexample :
    process_document_run_ops "docA" [parsedUS] =
      ([DbOp.add (store_citation_record "docA" parsedUS), DbOp.commit],
        some ambiguous_join_error) ∧
    countCommits [DbOp.add (store_citation_record "docA" parsedUS), DbOp.commit] = 1 ∧
    complete_components (store_citation_record "docA" parsedUS) = true :=
  ⟨rfl, by decide, by decide⟩

def corpusFanout : List Citation := [usRecord "docA", usRecord "docB", citingUS]

/-- Claim C1 (code_bug): the claim (matching the spec's fan-out step) expects
one record per candidate when the exact candidate set has more than one
element, but the candidates query raises `AmbiguousForeignKeysError`
(onclause-less join over two foreign-key paths, document_processor.py:205)
before the fan-out branch can run: at an input whose written candidate set is
["docA", "docB"], resolution aborts and no record is emitted.  Moreover, even
the written branch body would give every additional record the
"network connection" note (its duplicate guard compares candidate ids against
the pre-update null to-document, so no candidate is skipped), reserving
"primary" for the original row, so the claim's role attribution for the first
candidate's additional record does not match the written code either. -/
theorem fanout_candidates_query_raises :
    complete_components citingUS = true ∧
    citingUS.to_doc_id = none ∧
    exactCandidates corpusFanout citingUS = ["docA", "docB"] ∧
    link_one_citation_run corpusFanout citingUS =
      Except.error ambiguous_join_error :=
  ⟨by decide, rfl, by decide, rfl⟩

def fRecord (d : String) (vol : Nat) : Citation :=
  { from_doc_id := d, raw_text := "F. record", normalized_key := "F. record",
    reporter := some "F.", volume := some vol, page := some 5 }

def citingF : Citation :=
  { from_doc_id := "docC", raw_text := "100 F. 7", normalized_key := "100 F. 7",
    reporter := some "F.", volume := some 100, page := some 7, confidence := 8/10 }

def corpusFuzzy : List Citation := [fRecord "docA" 108, fRecord "docB" 120, citingF]

/-- Claim C3 (code_bug): the claim (matching the spec's fuzzy-matching step)
expects a 0.3-confidence fuzzy record to "docA" (same reporter "F.", volume
108 within ±10 of the citing volume 100), but resolution raises
`AmbiguousForeignKeysError` at the exact-candidates query
(document_processor.py:205) before fuzzy matching ever runs — and
`_find_fuzzy_citations` builds the identical onclause-less dual-FK join
(document_processor.py:286), so it would raise too.  The written fuzzy filter
would select exactly ["docA"] (volume 120 outside the window). -/
theorem fuzzy_query_raises :
    complete_components citingF = true ∧
    exactCandidates corpusFuzzy citingF = [] ∧
    find_fuzzy_citations corpusFuzzy citingF = ["docA"] ∧
    link_one_citation_run corpusFuzzy citingF =
      Except.error ambiguous_join_error :=
  ⟨by decide, by decide, by decide, rfl⟩

end CitationGraph
